import Mathlib

/-!
Shallow embedding of `vnpy_evo/websocket/websocket_client.py` (class
`WebsocketClient`).

The Python class runs two background threads (`_run`, the worker, and
`_run_ping`, the heartbeat) over a shared mutable connection handle
(`self._ws`, guarded by `self._ws_lock`).  External effects — the
`websocket` transport library, `json`, `sys.stderr`, `sys.excepthook`,
`traceback.format_exception`, the user-overridable callbacks — are
modelled by explicit environment records supplying the outcome of each
external call (success, or the class of the Python exception it raises).
Python exceptions are represented by their class, which is all the
client's `except` clauses inspect.

The cross-thread `_active` flag is modelled as an oracle `Nat → Bool`
giving the value observed at each loop-top read in the sequential models,
and as a shared field in the interleaved machine used for the
concurrency analysis of the connect/disconnect callbacks.
-/

namespace WSClient

/-- Classes of Python exceptions relevant to the client's `except` clauses:
the three transport classes named in `_run`'s first handler
(`websocket.WebSocketConnectionClosedException`,
`websocket.WebSocketBadStatusException`, `socket.error`), `ValueError`
(raised by `json.loads` on malformed input), `TypeError` (raised by a
mis-arity method call), and a catch-all for every other class. -/
inductive ExcClass
  | connClosed
  | badStatus
  | socketError
  | valueError
  | typeError
  | otherError
deriving DecidableEq

/-- Whether an exception class is matched by `_run`'s first `except`
clause: `except (websocket.WebSocketConnectionClosedException,
websocket.WebSocketBadStatusException, socket.error)`. -/
def isTransportExc : ExcClass → Bool
  | .connClosed => true
  | .badStatus => true
  | .socketError => true
  | _ => false

/-- Application packets: the default codec is JSON over `dict`; a
string-to-string dictionary suffices for every property proved here. -/
abbrev PData := List (String × String)

/-- The keyword arguments `_ensure_connection` passes to
`websocket.create_connection` (via `_create_connection`). -/
structure ConnectArgs where
  host : String
  sslCertNone : Bool
  http_proxy_host : String
  http_proxy_port : Int
  header : List (String × String)
  timeout : Int
deriving DecidableEq

/-- Observable events of one client: callback invocations, transport
calls and diagnostics.  `onConnected`/`onDisconnected`/`onPacket`/
`onError` mark entry into the corresponding callback; `connectAttempt`
marks one call of `_create_connection`; `sent`/`pingSent` mark transport
sends; `printed` is the `print` in `_run`'s decode handler;
`stderrWrite`/`excepthookCall` are the two emissions inside the default
`on_error`; `sleepSec` is one `sleep(1)` in `_run_ping`. -/
inductive Event
  | onConnected
  | onDisconnected
  | onPacket (d : PData)
  | onError (e : ExcClass)
  | connectAttempt (a : ConnectArgs)
  | sent (h : Nat) (text : List Char)
  | printed (text : List Char)
  | stderrWrite (text : List Char)
  | excepthookCall (e : ExcClass)
  | pingCall
  | pingSent (h : Nat)
  | sleepSec
deriving DecidableEq

/-- The instance fields of `WebsocketClient` that the verified operations
read or write.  Connection handles are numbered; `ws = none` is Python
`self._ws is None`.  The `_active` flag is modelled by the oracles of the
run models rather than stored here (it is written by another thread).
Diagnostic strings are Python strings, i.e. sequences of code points. -/
structure ClientState where
  host : String
  proxy_host : String
  proxy_port : Int
  ping_interval : Int
  header : List (String × String)
  receive_timeout : Int
  logger : Option String
  ws : Option Nat
  last_sent_text : Option (List Char)
  last_received_text : Option (List Char)
deriving DecidableEq

/-- `__init__`: field defaults of a freshly constructed client. -/
def mkClient : ClientState :=
  { host := ""
    proxy_host := ""
    proxy_port := 0
    ping_interval := 60
    header := []
    receive_timeout := 0
    logger := none
    ws := none
    last_sent_text := none
    last_received_text := none }

/-- `init`: stores host and ping interval, sets up the file logger when a
log path is given, stores the header dict when truthy, stores the proxy
pair only when BOTH `proxy_host` and `proxy_port` are truthy (Python
`if proxy_host and proxy_port`), and stores the receive timeout. -/
def init (st : ClientState) (host : String) (proxy_host : String)
    (proxy_port : Int) (ping_interval : Int)
    (header : Option (List (String × String))) (log_path : Option String)
    (receive_timeout : Int) : ClientState :=
  let st := { st with host := host, ping_interval := ping_interval }
  let st := match log_path with
    | some p => { st with logger := some p }
    | none => st
  let st := match header with
    | some hd => if hd ≠ [] then { st with header := hd } else st
    | none => st
  let st := if proxy_host ≠ "" ∧ proxy_port ≠ 0 then
      { st with proxy_host := proxy_host, proxy_port := proxy_port }
    else st
  { st with receive_timeout := receive_timeout }

/-- `_record_last_sent_text`: `self._last_sent_text = text[:1000]`. -/
def record_last_sent_text (st : ClientState) (text : List Char) : ClientState :=
  { st with last_sent_text := some (text.take 1000) }

/-- `_record_last_received_text`: `self._last_received_text = text[:1000]`. -/
def record_last_received_text (st : ClientState) (text : List Char) : ClientState :=
  { st with last_received_text := some (text.take 1000) }

/-- `_send_text`: `if self._ws: self._ws.send(text, opcode=OPCODE_TEXT)`.
`sendRaises` is the outcome of the transport send (consulted only when a
handle is present).  Returns emitted events and an escaping exception. -/
def send_text (sendRaises : Option ExcClass) (st : ClientState)
    (text : List Char) : List Event × Option ExcClass :=
  match st.ws with
  | none => ([], none)
  | some h =>
    match sendRaises with
    | some e => ([], some e)
    | none => ([Event.sent h text], none)

/-- `send_packet`: `text = json.dumps(packet); self._record_last_sent_text(text);
return self._send_text(text)`.  `dumps` abstracts `json.dumps` (total on
JSON-representable dicts). -/
def send_packet (dumps : PData → List Char) (sendRaises : Option ExcClass)
    (st : ClientState) (packet : PData) :
    ClientState × List Event × Option ExcClass :=
  let text := dumps packet
  let st := record_last_sent_text st text
  let r := send_text sendRaises st text
  (st, r.1, r.2)

/-- The arguments `_ensure_connection` passes to `_create_connection`:
`self.host`, `sslopt={"cert_reqs": ssl.CERT_NONE}`, the stored proxy
pair, the stored header, and `timeout=self._receive_timeout`. -/
def connectArgsOf (st : ClientState) : ConnectArgs :=
  { host := st.host
    sslCertNone := true
    http_proxy_host := st.proxy_host
    http_proxy_port := st.proxy_port
    header := st.header
    timeout := st.receive_timeout }

/-- `_ensure_connection`: under `self._ws_lock`, if `self._ws is None`,
create a connection (installing the handle and setting `triggered`);
outside the lock, fire `on_connected` when triggered.  `connectResult`
is the outcome of `websocket.create_connection`; `onConnectedRaises` is
the outcome of the user's `on_connected` callback (the event marks its
invocation; a raise escapes after it). -/
def ensure_connection (connectResult : Except ExcClass Nat)
    (onConnectedRaises : Option ExcClass) (st : ClientState) :
    ClientState × List Event × Option ExcClass :=
  match st.ws with
  | some _ => (st, [], none)
  | none =>
    match connectResult with
    | .error e => (st, [Event.connectAttempt (connectArgsOf st)], some e)
    | .ok h =>
      ({ st with ws := some h },
       [Event.connectAttempt (connectArgsOf st), Event.onConnected],
       onConnectedRaises)

/-- `_disconnect`: under the lock, if a handle is present take it out and
set `triggered`; outside the lock, `ws.close()` then `on_disconnected()`.
`closeRaises` is the outcome of the transport close; when it raises, the
handle is already removed but `on_disconnected` is never invoked.
`onDisconnectedRaises` is the outcome of the callback itself. -/
def disconnect (closeRaises onDisconnectedRaises : Option ExcClass)
    (st : ClientState) : ClientState × List Event × Option ExcClass :=
  match st.ws with
  | none => (st, [], none)
  | some _ =>
    let st := { st with ws := none }
    match closeRaises with
    | some e => (st, [], some e)
    | none => (st, [Event.onDisconnected], onDisconnectedRaises)

/-- Outcome of `ws.recv()`: a text frame (the empty string is Python's
falsy result signalling a peer close) or a raised exception. -/
inductive RecvRes
  | ok (s : List Char)
  | exc (e : ExcClass)
deriving DecidableEq

/-- `unpack_data` default: `json.loads(data)`, which raises `ValueError`
(`json.JSONDecodeError` is its subclass) on malformed input; the method
is an override point, so its outcome is supplied by the environment. -/
structure IterEnv where
  connectResult : Except ExcClass Nat
  onConnectedRaises : Option ExcClass
  recvResult : RecvRes
  unpackResult : Except ExcClass PData
  onPacketResult : Except ExcClass Unit
  onErrorRaises : Option ExcClass
  closeRaises : Option ExcClass
  onDisconnectedRaises : Option ExcClass

/-- The prefix of the `print` in `_run`'s decode handler:
`print("websocket unable to parse data: " + text)`. -/
def parseFailText (s : List Char) : List Char :=
  ("websocket unable to parse data: ").toList ++ s

/-- The part of `_run`'s loop body after `self._ensure_connection()`:
snapshot the handle; if present, `recv`; empty text disconnects and
continues; otherwise record, decode (a `ValueError` is printed and
re-raised), log, and dispatch to `on_packet`.  Result: state, events,
and the exception escaping the body if any. -/
def bodyAfterEnsure (env : IterEnv) (st : ClientState) :
    ClientState × List Event × Option ExcClass :=
  match st.ws with
  | none => (st, [], none)
  | some _ =>
    match env.recvResult with
    | .exc e => (st, [], some e)
    | .ok s =>
      if s = [] then
        disconnect env.closeRaises env.onDisconnectedRaises st
      else
        let st := record_last_received_text st s
        match env.unpackResult with
        | .error e =>
          if e = ExcClass.valueError then
            (st, [Event.printed (parseFailText s)], some e)
          else
            (st, [], some e)
        | .ok d =>
          match env.onPacketResult with
          | .error e => (st, [], some e)
          | .ok _ => (st, [Event.onPacket d], none)

/-- The whole loop body of `_run`'s `while self._active` (the inner `try`
block): `_ensure_connection` followed by the receive/decode/dispatch
sequence. -/
def loopBody (env : IterEnv) (st : ClientState) :
    ClientState × List Event × Option ExcClass :=
  let r1 := ensure_connection env.connectResult env.onConnectedRaises st
  match r1.2.2 with
  | some e => (r1.1, r1.2.1, some e)
  | none =>
    let r2 := bodyAfterEnsure env r1.1
    (r2.1, r1.2.1 ++ r2.2.1, r2.2.2)

/-- How one worker-loop iteration ends: fall through to the next
`while` check, or an exception escaping both inner `except` clauses
(it can only come from the handler code itself). -/
inductive IterOut
  | cont
  | raised (e : ExcClass)
deriving DecidableEq

/-- One iteration of `_run`'s `while` body including its two `except`
clauses: transport-class exceptions get a silent `_disconnect`; every
other exception gets `on_error` then `_disconnect`.  An exception raised
by `on_error` itself skips the `_disconnect`; an exception raised inside
either `_disconnect` escapes the iteration. -/
def runIter (env : IterEnv) (st : ClientState) :
    ClientState × List Event × IterOut :=
  let b := loopBody env st
  match b.2.2 with
  | none => (b.1, b.2.1, IterOut.cont)
  | some e =>
    if isTransportExc e then
      let d := disconnect env.closeRaises env.onDisconnectedRaises b.1
      match d.2.2 with
      | none => (d.1, b.2.1 ++ d.2.1, IterOut.cont)
      | some e2 => (d.1, b.2.1 ++ d.2.1, IterOut.raised e2)
    else
      match env.onErrorRaises with
      | some e2 => (b.1, b.2.1 ++ [Event.onError e], IterOut.raised e2)
      | none =>
        let d := disconnect env.closeRaises env.onDisconnectedRaises b.1
        match d.2.2 with
        | none => (d.1, b.2.1 ++ [Event.onError e] ++ d.2.1, IterOut.cont)
        | some e2 => (d.1, b.2.1 ++ [Event.onError e] ++ d.2.1, IterOut.raised e2)

/-- Environment of a whole `_run` execution: `activeAt i` is the value of
`self._active` observed at the `while` check of iteration `i` (the flag
is written by `start`/`stop` on other threads), `iter i` the external
outcomes of iteration `i`, and the remaining fields the outcomes of the
outer `except` handler's `on_error` and of the final `_disconnect`. -/
structure RunEnv where
  activeAt : Nat → Bool
  iter : Nat → IterEnv
  outerOnErrorRaises : Option ExcClass
  finalCloseRaises : Option ExcClass
  finalOnDisconnectedRaises : Option ExcClass

/-- How `_run` ends: fuel exhausted (the loop is still running),
returned normally, or an exception escaped `_run` itself (the thread
dies). -/
inductive RunRes
  | fuelOut
  | returned
  | escaped (e : ExcClass)
deriving DecidableEq

/-- The unconditional `self._disconnect()` on `_run`'s last line; an
exception it raises escapes `_run`. -/
def runExit (env : RunEnv) (st : ClientState) :
    ClientState × List Event × RunRes :=
  let d := disconnect env.finalCloseRaises env.finalOnDisconnectedRaises st
  match d.2.2 with
  | none => (d.1, d.2.1, RunRes.returned)
  | some e => (d.1, d.2.1, RunRes.escaped e)

/-- `_run` from iteration `i` with `fuel` remaining iterations: the
`while self._active` loop wrapped in the outer `try`/`except` (which
reports via `on_error` and falls out of the loop), followed by the final
`_disconnect`.  An exception raised by the outer `on_error` escapes
`_run` at once, skipping the final `_disconnect`. -/
def runFrom (env : RunEnv) : Nat → Nat → ClientState →
    ClientState × List Event × RunRes
  | _, 0, st => (st, [], RunRes.fuelOut)
  | i, Nat.succ fuel, st =>
    if env.activeAt i then
      let r := runIter (env.iter i) st
      match r.2.2 with
      | IterOut.cont =>
        let rest := runFrom env (i + 1) fuel r.1
        (rest.1, r.2.1 ++ rest.2.1, rest.2.2)
      | IterOut.raised e =>
        match env.outerOnErrorRaises with
        | some e2 => (r.1, r.2.1 ++ [Event.onError e], RunRes.escaped e2)
        | none =>
          let fin := runExit env r.1
          (fin.1, r.2.1 ++ [Event.onError e] ++ fin.2.1, fin.2.2)
    else
      runExit env st

/-- External outcomes of one `_run_ping` iteration: the transport ping
send (consulted only when a handle is present) and the `on_error` call
in the `except` clause. -/
structure PingIterEnv where
  pingSendRaises : Option ExcClass
  onErrorRaises : Option ExcClass

/-- `_ping`: `ws = self._ws; if ws: ws.send("ping", OPCODE_PING)` — a
silent no-op when no handle is present. -/
def ping (env : PingIterEnv) (ws : Option Nat) : List Event × Option ExcClass :=
  match ws with
  | none => ([Event.pingCall], none)
  | some h =>
    match env.pingSendRaises with
    | none => ([Event.pingCall, Event.pingSent h], none)
    | some e => ([Event.pingCall], some e)

/-- The interval loop `for i in range(n): if not self._active: break;
sleep(1)` executes one `sleep(1)` per leading `true` of the observed
`_active` sequence, up to `n`. -/
def intervalSleeps (n : Nat) (act : Nat → Bool) : Nat :=
  ((List.range n).takeWhile act).length

/-- Environment of a `_run_ping` execution: `activeAt i` the `_active`
value at the `while` check of iteration `i`, `wsAt i` the handle `_ping`
observes (the worker thread mutates it concurrently), `iter i` the
external outcomes, `intervalActive i j` the `_active` value at second
`j` of iteration `i`'s interval loop. -/
structure PingEnv where
  activeAt : Nat → Bool
  wsAt : Nat → Option Nat
  iter : Nat → PingIterEnv
  intervalActive : Nat → Nat → Bool

/-- How `_run_ping` ends: fuel exhausted (still looping), returned
normally via the `while` check, or an exception escaped (there is no
outer handler in `_run_ping`, so a raise from `on_error` kills the ping
thread). -/
inductive PingRes
  | fuelOut
  | exited
  | crashed (e : ExcClass)
deriving DecidableEq

/-- `_run_ping` from iteration `i`: while active, try `_ping`; on any
exception, `on_error` then `sleep(1)`; then the 1-second interval loop;
repeat. -/
def runPingFrom (env : PingEnv) (interval : Nat) : Nat → Nat →
    List Event × PingRes
  | _, 0 => ([], PingRes.fuelOut)
  | i, Nat.succ fuel =>
    if env.activeAt i then
      let p := ping (env.iter i) (env.wsAt i)
      match p.2 with
      | some e =>
        match (env.iter i).onErrorRaises with
        | some e2 => (p.1 ++ [Event.onError e], PingRes.crashed e2)
        | none =>
          let k := intervalSleeps interval (env.intervalActive i)
          let rest := runPingFrom env interval (i + 1) fuel
          (p.1 ++ [Event.onError e, Event.sleepSec] ++
             List.replicate k Event.sleepSec ++ rest.1, rest.2)
      | none =>
        let k := intervalSleeps interval (env.intervalActive i)
        let rest := runPingFrom env interval (i + 1) fuel
        (p.1 ++ List.replicate k Event.sleepSec ++ rest.1, rest.2)
    else
      ([], PingRes.exited)

/-- Python's textual formatting of an optional diagnostic string:
`"{}".format(None)` is `"None"`. -/
def pyFormatOpt : Option (List Char) → List Char
  | none => ("None").toList
  | some s => s

/-- The `repr` of the exception type interpolated by `exception_detail`
(`"...Error:{}".format(..., exception_type)`). -/
def excTypeName : ExcClass → List Char
  | .connClosed => ("<class websocket.WebSocketConnectionClosedException>").toList
  | .badStatus => ("<class websocket.WebSocketBadStatusException>").toList
  | .socketError => ("<class OSError>").toList
  | .valueError => ("<class ValueError>").toList
  | .typeError => ("<class TypeError>").toList
  | .otherError => ("<class Exception>").toList

/-- `exception_detail`: the report text, given the timestamp string
`datetime.now().isoformat()` and the lines returned by
`traceback.format_exception` (both external calls). -/
def exception_detail (nowIso : List Char) (traceLines : List (List Char))
    (st : ClientState) (e : ExcClass) : List Char :=
  ("[").toList ++ nowIso ++ ("]: Unhandled WebSocket Error:").toList ++
    excTypeName e ++ ['\n'] ++
  ("LastSentText:").toList ++ ['\n'] ++ pyFormatOpt st.last_sent_text ++ ['\n'] ++
  ("LastReceivedText:").toList ++ ['\n'] ++ pyFormatOpt st.last_received_text ++ ['\n'] ++
  ("Exception trace: ").toList ++ ['\n'] ++ traceLines.flatten

/-- External outcomes inside the default `on_error`:
`traceback.format_exception` (reached while building the argument of the
stderr write), `sys.stderr.write`, and `sys.excepthook`. -/
structure OnErrorEnv where
  formatExceptionResult : Except ExcClass (List (List Char))
  stderrWriteRaises : Option ExcClass
  excepthookRaises : Option ExcClass

/-- The default `on_error`:
`sys.stderr.write(self.exception_detail(...)); return sys.excepthook(...)`.
There is no `try`/`except` in its body or in `exception_detail`, so any
failure of the three external calls escapes to the caller at the point
it occurs. -/
def on_error (env : OnErrorEnv) (nowIso : List Char) (st : ClientState)
    (e : ExcClass) : List Event × Option ExcClass :=
  match env.formatExceptionResult with
  | .error e2 => ([], some e2)
  | .ok traceLines =>
    let text := exception_detail nowIso traceLines st e
    match env.stderrWriteRaises with
    | some e2 => ([], some e2)
    | none =>
      match env.excepthookRaises with
      | some e2 => ([Event.stderrWrite text], some e2)
      | none => ([Event.stderrWrite text, Event.excepthookCall e], none)

/-- CPython positional-call check for a bound method with no defaults or
varargs: a call through an instance with `argCount` explicit arguments
supplies `argCount + 1` positional values (the instance is prepended);
it binds exactly when that equals the declared parameter count,
otherwise the call raises `TypeError`. -/
def pyBoundCall (paramCount argCount : Nat) : Except ExcClass Unit :=
  if argCount + 1 = paramCount then Except.ok () else Except.error ExcClass.typeError

/-- Declared parameter count of the source's `def on_packet(packet: dict)`:
one parameter and no `self`. -/
def on_packet_paramCount : Nat := 1

/-- Outcome of `self.on_packet(data)` on a client that has not
overridden `on_packet`: a bound call with one explicit argument. -/
def default_on_packet_call : Except ExcClass Unit :=
  pyBoundCall on_packet_paramCount 1

/-- The connect/disconnect callback events. -/
def isConnEvent : Event → Bool
  | .onConnected => true
  | .onDisconnected => true
  | _ => false

/-- The subsequence of connection-lifecycle callback invocations of a
trace. -/
def connEvents (l : List Event) : List Event :=
  l.filter fun e => isConnEvent e

/-- Strict alternation of a trace: no two adjacent equal events. -/
def alternates (l : List Event) : Prop :=
  l.Chain' fun a b => a ≠ b

/-- Paths of the two-state connection automaton: from state `b` (whether
a handle is conceptually present), `onConnected` is enabled only at
`false` and leads to `true`; `onDisconnected` only at `true`, leading to
`false`. -/
inductive ConnWalk : Bool → List Event → Bool → Prop
  | nil (b : Bool) : ConnWalk b [] b
  | conn {l : List Event} {b2 : Bool} (h : ConnWalk true l b2) :
      ConnWalk false (Event.onConnected :: l) b2
  | disc {l : List Event} {b2 : Bool} (h : ConnWalk false l b2) :
      ConnWalk true (Event.onDisconnected :: l) b2

/-!
Interleaved machine for the concurrency analysis of the
`onConnected`/`onDisconnected` ordering.  Two threads act on the shared
fields `_active` and `_ws`: the worker running `_run`, and a control
thread running `stop()` (`self._active = False; self._disconnect()`).
Each `with self._ws_lock` block is one atomic step (the lock serialises
them); the callback invocations, which the source deliberately performs
OUTSIDE the lock, are separate steps and can therefore interleave with
the other thread.  The modelled client is a subclass whose `on_packet`
override returns normally and whose `unpack_data` succeeds; diagnostic
recording is elided here (it touches no control state; claim C8 treats
it separately).
-/

/-- Worker-thread control points inside `_run`.  `ensureFire` /
`discFire` are the callback invocations performed after leaving the
lock; `discLock true` is the final `_disconnect` after the loop. -/
inductive WPC
  | loopCheck
  | ensureLock
  | ensureFire (trig : Bool)
  | recvSnap
  | recvDo (h : Nat)
  | discLock (final : Bool)
  | discFire (final : Bool) (trig : Bool)
  | wdone
deriving DecidableEq

/-- Control-thread (caller of `stop()`) control points. -/
inductive SPC
  | setInactive
  | sDiscLock
  | sDiscFire (trig : Bool)
  | sdone
deriving DecidableEq

/-- Shared and thread-local state of the interleaved machine. -/
structure Mach where
  active : Bool
  ws : Option Nat
  nextH : Nat
  wpc : WPC
  spc : SPC
  trace : List Event
deriving DecidableEq

/-- Per-handle receive outcomes for the machine. -/
structure MachEnv where
  recvFor : Nat → RecvRes
  packetFor : Nat → PData

/-- One atomic step of the worker thread. -/
def wstep (env : MachEnv) (m : Mach) : Mach :=
  match m.wpc with
  | .loopCheck =>
    if m.active then { m with wpc := WPC.ensureLock }
    else { m with wpc := WPC.discLock true }
  | .ensureLock =>
    match m.ws with
    | some _ => { m with wpc := WPC.ensureFire false }
    | none =>
      { m with ws := some m.nextH, nextH := m.nextH + 1,
               wpc := WPC.ensureFire true }
  | .ensureFire trig =>
    { m with wpc := WPC.recvSnap,
             trace := m.trace ++ if trig then [Event.onConnected] else [] }
  | .recvSnap =>
    match m.ws with
    | none => { m with wpc := WPC.loopCheck }
    | some h => { m with wpc := WPC.recvDo h }
  | .recvDo h =>
    match env.recvFor h with
    | .ok s =>
      if s = [] then { m with wpc := WPC.discLock false }
      else { m with wpc := WPC.loopCheck,
                    trace := m.trace ++ [Event.onPacket (env.packetFor h)] }
    | .exc e =>
      if isTransportExc e then { m with wpc := WPC.discLock false }
      else { m with wpc := WPC.discLock false,
                    trace := m.trace ++ [Event.onError e] }
  | .discLock final =>
    match m.ws with
    | none => { m with wpc := WPC.discFire final false }
    | some _ => { m with ws := none, wpc := WPC.discFire final true }
  | .discFire final trig =>
    { m with trace := m.trace ++ if trig then [Event.onDisconnected] else [],
             wpc := if final then WPC.wdone else WPC.loopCheck }
  | .wdone => m

/-- One atomic step of the control thread running `stop()`. -/
def sstep (m : Mach) : Mach :=
  match m.spc with
  | .setInactive => { m with active := false, spc := SPC.sDiscLock }
  | .sDiscLock =>
    match m.ws with
    | none => { m with spc := SPC.sDiscFire false }
    | some _ => { m with ws := none, spc := SPC.sDiscFire true }
  | .sDiscFire trig =>
    { m with trace := m.trace ++ if trig then [Event.onDisconnected] else [],
             spc := SPC.sdone }
  | .sdone => m

/-- Thread identifiers of the machine. -/
inductive TId
  | W
  | S
deriving DecidableEq

/-- Dispatch one step to a thread. -/
def mstep (env : MachEnv) (m : Mach) : TId → Mach
  | .W => wstep env m
  | .S => sstep m

/-- Run a schedule (a finite interleaving) from a machine state. -/
def runSched (env : MachEnv) (m : Mach) (sched : List TId) : Mach :=
  sched.foldl (mstep env) m

/-- The machine state just after `start()`: worker at its loop head, the
control thread poised to call `stop()`, no handle, empty trace. -/
def mach0 : Mach :=
  { active := true, ws := none, nextH := 1,
    wpc := WPC.loopCheck, spc := SPC.setInactive, trace := [] }

/-- The diagnostic bound: both last-message strings, when set, hold at
most 1000 characters. -/
def diagInv (st : ClientState) : Prop :=
  (∀ s, st.last_sent_text = some s → s.length ≤ 1000) ∧
  (∀ s, st.last_received_text = some s → s.length ≤ 1000)

/-- An iteration environment whose exception-handler operations
(`on_error`, `ws.close()`, `on_disconnected`) return normally. -/
def cleanIterEnv (env : IterEnv) : Prop :=
  env.onErrorRaises = none ∧ env.closeRaises = none ∧
    env.onDisconnectedRaises = none

/-- The constant-true `_active` observation: `stop()` is never called. -/
def alwaysTrue : Nat → Bool := fun _ => true

/-- Machine environment for the interleaving analysis: handle 1 delivers
one text frame, any later handle raises the connection-closed error. -/
def machEnvCE : MachEnv :=
  { recvFor := fun h => if h = 1 then RecvRes.ok ("x").toList
      else RecvRes.exc ExcClass.connClosed
    packetFor := fun _ => [("op", "ping")] }

/-- The interleaving refuting strict alternation: the worker connects,
receives one packet and passes its `while` check; `stop()` then runs up
to and including the lock section of `_disconnect` (removing the handle)
but is preempted before firing `on_disconnected`; the worker's
`_ensure_connection` finds no handle, reconnects and fires a second
`onConnected`. -/
def schedCE : List TId :=
  [TId.W, TId.W, TId.W, TId.W, TId.W, TId.W, TId.S, TId.S, TId.W, TId.W]

/-- Iteration environment in which the loop body raises `ValueError`
(decode failure) and the handler's `ws.close()` itself raises
`socket.error`. -/
def iterCE : IterEnv :=
  { connectResult := Except.ok 1
    onConnectedRaises := none
    recvResult := RecvRes.ok ("x").toList
    unpackResult := Except.error ExcClass.valueError
    onPacketResult := Except.ok ()
    onErrorRaises := none
    closeRaises := some ExcClass.socketError
    onDisconnectedRaises := none }

/-- `_run` environment for the worker-termination counterexample:
`stop()` is never called, every iteration behaves as `iterCE`. -/
def runEnvCE : RunEnv :=
  { activeAt := alwaysTrue
    iter := fun _ => iterCE
    outerOnErrorRaises := none
    finalCloseRaises := none
    finalOnDisconnectedRaises := none }

/-- Iteration environment witnessing the decode-failure path with
well-behaved handlers. -/
def iterW4 : IterEnv :=
  { connectResult := Except.ok 1
    onConnectedRaises := none
    recvResult := RecvRes.ok ['x']
    unpackResult := Except.error ExcClass.valueError
    onPacketResult := Except.ok ()
    onErrorRaises := none
    closeRaises := none
    onDisconnectedRaises := none }

/-- Iteration environment witnessing the default `on_packet` dispatch:
decode succeeds and the packet is handed to the un-overridden
`on_packet`. -/
def iterW9 : IterEnv :=
  { connectResult := Except.ok 1
    onConnectedRaises := none
    recvResult := RecvRes.ok ['x']
    unpackResult := Except.ok [("op", "x")]
    onPacketResult := default_on_packet_call
    onErrorRaises := none
    closeRaises := none
    onDisconnectedRaises := none }

/-- A client state holding connection handle 1. -/
def stConn : ClientState := { mkClient with ws := some 1 }

/-- `_run` environment with clean handlers and `stop()` never called,
iterating `iterW4`. -/
def runEnvW : RunEnv :=
  { activeAt := alwaysTrue
    iter := fun _ => iterW4
    outerOnErrorRaises := none
    finalCloseRaises := none
    finalOnDisconnectedRaises := none }

/-- Ping environment for the ping-thread-death counterexample: the
heartbeat send fails and the `on_error` call in the handler itself
raises. -/
def pingEnvCE : PingEnv :=
  { activeAt := alwaysTrue
    wsAt := fun _ => some 1
    iter := fun _ =>
      { pingSendRaises := some ExcClass.socketError
        onErrorRaises := some ExcClass.otherError }
    intervalActive := fun _ _ => true }

/-- Ping environment witnessing recovery: the heartbeat send fails but
`on_error` returns normally; the interval-loop `_active` reads are false
so the interval adds no sleeps. -/
def pingEnvW : PingEnv :=
  { activeAt := alwaysTrue
    wsAt := fun _ => some 1
    iter := fun _ =>
      { pingSendRaises := some ExcClass.socketError
        onErrorRaises := none }
    intervalActive := fun _ _ => false }

/-- `on_error` environment in which `sys.stderr.write` raises. -/
def onErrEnvFail : OnErrorEnv :=
  { formatExceptionResult := Except.ok [("Traceback (most recent call last)").toList]
    stderrWriteRaises := some ExcClass.otherError
    excepthookRaises := none }

/-- `on_error` environment in which all three external calls succeed. -/
def onErrEnvOk : OnErrorEnv :=
  { formatExceptionResult := Except.ok []
    stderrWriteRaises := none
    excepthookRaises := none }

/-! ## Theorems -/

/-- Claim C5: for every call to `_ensure_connection`, if a connection
handle already exists the call is a no-op firing no callback; if no
handle exists and the transport connect fails, the error propagates to
the caller, no handle is installed, `on_connected` is not invoked, and
exactly one connect attempt is made (no retry inside the call). -/
theorem claim_C5 (cr : Except ExcClass Nat) (ocr : Option ExcClass)
    (st : ClientState) :
    (st.ws.isSome → ensure_connection cr ocr st = (st, [], none)) ∧
    (∀ e, st.ws = none → cr = Except.error e →
      ensure_connection cr ocr st =
        (st, [Event.connectAttempt (connectArgsOf st)], some e)) := by
  constructor
  · intro h
    match hw : st.ws with
    | some k => simp [ensure_connection, hw]
    | none => rw [hw] at h; simp at h
  · intro e hw hc
    simp [ensure_connection, hw, hc]

/-- Witness for C5 at concrete inputs: a present handle makes the call a
no-op even when the connect oracle would fail, and on an absent handle a
failing connect propagates with exactly one attempt and no callback. -/
theorem claim_C5_witness :
    ensure_connection (Except.error ExcClass.socketError) none stConn =
      (stConn, [], none) ∧
    ensure_connection (Except.error ExcClass.socketError) none mkClient =
      (mkClient, [Event.connectAttempt (connectArgsOf mkClient)],
       some ExcClass.socketError) :=
  ⟨(claim_C5 _ _ _).1 rfl,
   (claim_C5 _ _ _).2 ExcClass.socketError rfl rfl⟩

/-- Claim C6: `send_packet` with no connection handle present transmits
nothing, raises nothing, and reports nothing — its only effect is the
last-sent recording. -/
theorem claim_C6 (dumps : PData → List Char) (sendRaises : Option ExcClass)
    (st : ClientState) (p : PData) (h : st.ws = none) :
    send_packet dumps sendRaises st p =
      (record_last_sent_text st (dumps p), [], none) := by
  simp [send_packet, send_text, record_last_sent_text, h]

/-- Witness for C6: on a freshly constructed client (no `on_connected`
ever fired) a send is a silent no-op. -/
theorem claim_C6_witness :
    send_packet (fun _ => ['a']) none mkClient [("op", "sub")] =
      (record_last_sent_text mkClient ['a'], [], none) :=
  claim_C6 (fun _ => ['a']) none mkClient [("op", "sub")] rfl

/-- Claim C3 counterexample: in the default `on_error`, a failure of
`sys.stderr.write` while emitting the report propagates to the caller —
nothing is swallowed. -/
theorem claim_C3_counterexample :
    (on_error onErrEnvFail ("2026-01-01T00:00:00").toList mkClient
      ExcClass.valueError).2 = some ExcClass.otherError := rfl

/-- Claim C3 (amended): the default `on_error` performs no exception
handling of its own: it returns normally exactly when traceback
formatting, the stderr write and the excepthook all succeed (and then
emits the full detail text), and any failure among them propagates to
its caller. -/
theorem claim_C3_amended (env : OnErrorEnv) (nowIso : List Char)
    (st : ClientState) (e : ExcClass) :
    ((on_error env nowIso st e).2 = none ↔
      (∃ tl, env.formatExceptionResult = Except.ok tl) ∧
      env.stderrWriteRaises = none ∧ env.excepthookRaises = none) ∧
    (∀ tl, env.formatExceptionResult = Except.ok tl →
      env.stderrWriteRaises = none → env.excepthookRaises = none →
      on_error env nowIso st e =
        ([Event.stderrWrite (exception_detail nowIso tl st e),
          Event.excepthookCall e], none)) := by
  constructor
  · match h1 : env.formatExceptionResult with
    | .error e2 => simp [on_error, h1]
    | .ok tl =>
      match h2 : env.stderrWriteRaises with
      | some e2 => simp [on_error, h1, h2]
      | none =>
        match h3 : env.excepthookRaises with
        | some e2 => simp [on_error, h1, h2, h3]
        | none => simp [on_error, h1, h2, h3]
  · intro tl h1 h2 h3
    simp [on_error, h1, h2, h3]

/-- Witness for C3 (amended) at a concrete environment in which all
three external calls succeed. -/
theorem claim_C3_amended_witness :
    on_error onErrEnvOk ['t'] mkClient ExcClass.typeError =
      ([Event.stderrWrite (exception_detail ['t'] [] mkClient ExcClass.typeError),
        Event.excepthookCall ExcClass.typeError], none) :=
  (claim_C3_amended onErrEnvOk ['t'] mkClient ExcClass.typeError).2 [] rfl rfl rfl

/-- Claim C10: `init` on a freshly constructed client stores the proxy
pair exactly when both the proxy host is non-empty and the proxy port is
non-zero; otherwise both fields keep their unset defaults, and the
arguments `_ensure_connection` would pass to the transport carry no
proxy. -/
theorem claim_C10 (host ph : String) (pp pingIv : Int)
    (hd : Option (List (String × String))) (lp : Option String) (rt : Int) :
    ((init mkClient host ph pp pingIv hd lp rt).proxy_host =
        (if ph ≠ "" ∧ pp ≠ 0 then ph else "") ∧
      (init mkClient host ph pp pingIv hd lp rt).proxy_port =
        (if ph ≠ "" ∧ pp ≠ 0 then pp else 0)) ∧
    ((ph = "" ∨ pp = 0) →
      (connectArgsOf (init mkClient host ph pp pingIv hd lp rt)).http_proxy_host = "" ∧
      (connectArgsOf (init mkClient host ph pp pingIv hd lp rt)).http_proxy_port = 0) := by
  have hbase :
      (init mkClient host ph pp pingIv hd lp rt).proxy_host =
        (if ph ≠ "" ∧ pp ≠ 0 then ph else "") ∧
      (init mkClient host ph pp pingIv hd lp rt).proxy_port =
        (if ph ≠ "" ∧ pp ≠ 0 then pp else 0) := by
    unfold init
    cases lp <;> cases hd <;>
      simp only [mkClient] <;>
      (repeat' split) <;> simp_all
  refine ⟨hbase, ?_⟩
  intro hor
  have hcond : ¬(ph ≠ "" ∧ pp ≠ 0) := by
    rcases hor with h | h <;> simp [h]
  constructor
  · simp [connectArgsOf, hbase.1, hcond]
  · simp [connectArgsOf, hbase.2, hcond]

/-- Witness for C10 at the claim's own example: a non-empty proxy host
with port 0 leaves both proxy fields unset and the connect arguments
proxy-free. -/
theorem claim_C10_witness :
    (connectArgsOf (init mkClient "wss://h" "proxy.local" 0 60 none none 60)).http_proxy_host = "" ∧
    (connectArgsOf (init mkClient "wss://h" "proxy.local" 0 60 none none 60)).http_proxy_port = 0 :=
  (claim_C10 "wss://h" "proxy.local" 0 60 none none 60).2 (Or.inr rfl)

/-- A `_disconnect` whose `ws.close()` and `on_disconnected` return
normally never raises. -/
theorem disconnect_clean (st : ClientState) :
    (disconnect none none st).2.2 = none := by
  match hw : st.ws with
  | none => simp [disconnect, hw]
  | some h => simp [disconnect, hw]

/-- With clean handler operations, every worker-loop iteration falls
through to the next `while` check, whatever the loop body did. -/
theorem runIter_cont_of_clean (env : IterEnv) (st : ClientState)
    (h : cleanIterEnv env) : (runIter env st).2.2 = IterOut.cont := by
  obtain ⟨h1, h2, h3⟩ := h
  unfold runIter
  rw [h1, h2, h3]
  have key := disconnect_clean (loopBody env st).1
  cases hb : (loopBody env st).2.2 with
  | none => simp [hb]
  | some e =>
    simp only [hb]
    split <;> simp [key]

/-- Claim C4 counterexample: the claim's unconditional "the Worker loop
continues to the next iteration" fails on the code.  A non-empty frame
whose decode raises `ValueError` is printed, re-raised and reported via
`on_error`, and the handle is removed — but when the handler's
`_disconnect` has `ws.close()` raise `socket.error`, the iteration ends
with that exception escaping both inner `except` clauses (to the outer
handler outside the `while`, where `_run` returns; see the C1
counterexample), not with a fall-through to the next iteration. -/
theorem claim_C4_counterexample :
    runIter iterCE stConn =
      ({ stConn with ws := none, last_received_text := some (("x").toList) },
       [Event.printed (parseFailText (("x").toList)),
        Event.onError ExcClass.valueError],
       IterOut.raised ExcClass.socketError) := by decide

/-- Claim C4 (amended): a non-empty received frame whose decode raises
`ValueError` is printed and re-raised; the catch-all handler reports it
via `on_error` and drops the connection — the frame is recorded
truncated and never skipped with the connection kept open.  Provided the
handler's own `on_error` and `_disconnect` operations return normally,
`on_disconnected` fires and the Worker loop continues to the next
iteration; if the handler's close itself raises, the exception instead
escapes to the outer handler (counterexample). -/
theorem claim_C4 (env : IterEnv) (st : ClientState) (h : Nat) (s : List Char)
    (hws : st.ws = some h) (hrecv : env.recvResult = RecvRes.ok s)
    (hs : s ≠ []) (hup : env.unpackResult = Except.error ExcClass.valueError)
    (he : env.onErrorRaises = none) (hc : env.closeRaises = none)
    (hd : env.onDisconnectedRaises = none) :
    runIter env st =
      ({ st with ws := none, last_received_text := some (s.take 1000) },
       [Event.printed (parseFailText s), Event.onError ExcClass.valueError,
        Event.onDisconnected], IterOut.cont) := by
  simp [runIter, loopBody, bodyAfterEnsure, ensure_connection, disconnect,
    record_last_received_text, isTransportExc, hws, hrecv, hs, hup, he, hc, hd]

/-- Witness for C4: a concrete client holding a handle receives `"x"`,
whose decode fails; the iteration reports, disconnects and continues. -/
theorem claim_C4_witness :
    runIter iterW4 stConn =
      ({ stConn with ws := none, last_received_text := some (['x'].take 1000) },
       [Event.printed (parseFailText ['x']), Event.onError ExcClass.valueError,
        Event.onDisconnected], IterOut.cont) :=
  claim_C4 iterW4 stConn 1 ['x'] rfl rfl (by simp) rfl rfl rfl rfl

/-- Claim C9: the source defines `on_packet(packet)` without a `self`
parameter, so the bound call `self.on_packet(data)` supplies two
positional values to a one-parameter function and raises `TypeError`;
consequently, on a client that has not overridden `on_packet`, every
successfully decoded message takes the error path — `on_error` is
invoked with the `TypeError`, the connection is dropped, and no
`onPacket` dispatch occurs. -/
theorem claim_C9 :
    default_on_packet_call = Except.error ExcClass.typeError ∧
    ∀ (env : IterEnv) (st : ClientState) (h : Nat) (s : List Char) (d : PData),
      st.ws = some h → env.recvResult = RecvRes.ok s → s ≠ [] →
      env.unpackResult = Except.ok d →
      env.onPacketResult = default_on_packet_call →
      env.onErrorRaises = none → env.closeRaises = none →
      env.onDisconnectedRaises = none →
      runIter env st =
        ({ st with ws := none, last_received_text := some (s.take 1000) },
         [Event.onError ExcClass.typeError, Event.onDisconnected],
         IterOut.cont) := by
  refine ⟨rfl, ?_⟩
  intro env st h s d hws hrecv hs hup hop he hc hd
  have hop' : env.onPacketResult = Except.error ExcClass.typeError := hop
  simp [runIter, loopBody, bodyAfterEnsure, ensure_connection, disconnect,
    record_last_received_text, isTransportExc, hws, hrecv, hs, hup, hop',
    he, hc, hd]

/-- Witness for C9: the concrete decoded packet `[("op","x")]` handed to
the default `on_packet` ends in `on_error` plus disconnect. -/
theorem claim_C9_witness :
    runIter iterW9 stConn =
      ({ stConn with ws := none, last_received_text := some (['x'].take 1000) },
       [Event.onError ExcClass.typeError, Event.onDisconnected],
       IterOut.cont) :=
  claim_C9.2 iterW9 stConn 1 ['x'] [("op", "x")] rfl rfl (by simp) rfl rfl
    rfl rfl rfl

/-- Claim C1 counterexample: with `stop()` never called (`_active`
observed true at every check) the worker thread nevertheless terminates:
a decode failure is reported via `on_error`, but the handler's own
`_disconnect` raises (`ws.close()` fails with `socket.error`), the
exception escapes the inner `except` clauses to the outer handler —
which sits OUTSIDE the `while` loop — and `_run` returns.  The trace
shows the body exception was reported yet the loop did not continue. -/
theorem claim_C1_counterexample :
    runEnvCE.activeAt = alwaysTrue ∧
    runFrom runEnvCE 0 3 mkClient =
      ({ mkClient with last_received_text := some (("x").toList) },
       [Event.connectAttempt (connectArgsOf mkClient), Event.onConnected,
        Event.printed (parseFailText (("x").toList)),
        Event.onError ExcClass.valueError, Event.onError ExcClass.socketError],
       RunRes.returned) := by
  exact ⟨rfl, by decide⟩

/-- Claim C1 (amended): every exception raised inside the worker loop
body that is not a recognised transport error is caught by the inner
catch-all handler and reported via `on_error`, and — provided the
handler's own `on_error` and `_disconnect` operations return normally —
the loop continues; with such clean handlers throughout, the worker
never terminates while `_active` is observed true.  (If a handler
operation itself raises, the worker terminates even while active — see
the counterexample.) -/
theorem claim_C1 :
    (∀ (env : IterEnv) (st st1 : ClientState) (evs : List Event) (e : ExcClass),
      loopBody env st = (st1, evs, some e) → isTransportExc e = false →
      cleanIterEnv env →
      (runIter env st).2.2 = IterOut.cont ∧
        Event.onError e ∈ (runIter env st).2.1) ∧
    (∀ (env : RunEnv), (∀ j, cleanIterEnv (env.iter j)) →
      (∀ j, env.activeAt j = true) →
      ∀ i fuel st, (runFrom env i fuel st).2.2 = RunRes.fuelOut) := by
  constructor
  · intro env st st1 evs e hbody htr hclean
    obtain ⟨h1, h2, h3⟩ := hclean
    have key := disconnect_clean st1
    unfold runIter
    rw [hbody, h1, h2, h3]
    simp only [htr, key]
    simp
  · intro env hclean hact i fuel st
    induction fuel generalizing i st with
    | zero => rfl
    | succ fuel ih =>
      have hc := runIter_cont_of_clean (env.iter i) st (hclean i)
      unfold runFrom
      rw [hact i]
      simp only [if_true, hc]
      simpa using ih (i + 1) (runIter (env.iter i) st).1

/-- Witness for C1 (amended): a concrete iteration whose body raises
`ValueError` with clean handlers continues and reports, and a concrete
clean environment with `_active` constantly true only ever runs out of
fuel. -/
theorem claim_C1_witness :
    ((runIter iterW4 stConn).2.2 = IterOut.cont ∧
      Event.onError ExcClass.valueError ∈ (runIter iterW4 stConn).2.1) ∧
    (runFrom runEnvW 0 4 mkClient).2.2 = RunRes.fuelOut :=
  ⟨claim_C1.1 iterW4 stConn
      { stConn with last_received_text := some (['x'].take 1000) }
      [Event.printed (parseFailText ['x'])] ExcClass.valueError
      (by decide) rfl ⟨rfl, rfl, rfl⟩,
   claim_C1.2 runEnvW (fun _ => ⟨rfl, rfl, rfl⟩) (fun _ => rfl) 0 4 mkClient⟩

/-- Claim C7 counterexample: a heartbeat-send failure whose `on_error`
report itself raises kills the ping thread (`_run_ping` has no outer
handler): with `_active` constantly true, the run crashes after a single
ping attempt — no sleep, no retry after the next interval. -/
theorem claim_C7_counterexample :
    pingEnvCE.activeAt = alwaysTrue ∧
    runPingFrom pingEnvCE 60 0 5 =
      ([Event.pingCall, Event.onError ExcClass.socketError],
       PingRes.crashed ExcClass.otherError) :=
  ⟨rfl, by decide⟩

/-- Claim C7 (amended): provided the `on_error` report returns normally,
a heartbeat-send failure is reported via the error channel followed by
the 1-second grace sleep and the normal interval sleeps, the ping task
never crashes, and whenever `_active` is observed true at a `while`
check another `_ping` attempt is made. -/
theorem claim_C7 :
    (∀ (env : PingEnv) (interval : Nat),
      (∀ j, (env.iter j).onErrorRaises = none) →
      ∀ i fuel e, (runPingFrom env interval i fuel).2 ≠ PingRes.crashed e) ∧
    (∀ (env : PingEnv) (interval i fuel : Nat) (h : Nat) (e : ExcClass),
      env.activeAt i = true → env.wsAt i = some h →
      (env.iter i).pingSendRaises = some e →
      (env.iter i).onErrorRaises = none →
      runPingFrom env interval i (fuel + 1) =
        (Event.pingCall :: Event.onError e :: Event.sleepSec ::
          (List.replicate (intervalSleeps interval (env.intervalActive i))
              Event.sleepSec ++
            (runPingFrom env interval (i + 1) fuel).1),
         (runPingFrom env interval (i + 1) fuel).2)) ∧
    (∀ (env : PingEnv) (interval i fuel : Nat),
      env.activeAt i = true →
      Event.pingCall ∈ (runPingFrom env interval i (fuel + 1)).1) := by
  refine ⟨?_, ?_, ?_⟩
  · intro env interval hclean i fuel
    induction fuel generalizing i with
    | zero => intro e; simp [runPingFrom]
    | succ fuel ih =>
      intro e
      unfold runPingFrom
      by_cases hact : env.activeAt i = true
      · rw [hact]
        simp only [if_true]
        cases hws : env.wsAt i with
        | none => simpa [ping, hws] using ih (i + 1) e
        | some h =>
          cases hp : (env.iter i).pingSendRaises with
          | none => simpa [ping, hws, hp] using ih (i + 1) e
          | some e0 => simpa [ping, hws, hp, hclean i] using ih (i + 1) e
      · simp only [Bool.not_eq_true] at hact
        simp [hact]
  · intro env interval i fuel h e hact hws hp hclean
    conv_lhs => rw [runPingFrom]
    rw [hact]
    simp [ping, hws, hp, hclean]
  · intro env interval i fuel hact
    unfold runPingFrom
    rw [hact]
    simp only [if_true]
    cases hws : env.wsAt i with
    | none => simp [ping, hws]
    | some h =>
      cases hp : (env.iter i).pingSendRaises with
      | none => simp [ping, hws, hp]
      | some e0 =>
        cases he : (env.iter i).onErrorRaises with
        | none => simp [ping, hws, hp, he]
        | some e2 => simp [ping, hws, hp, he]

/-- Witness for C7 (amended) at a concrete environment in which the
heartbeat send fails but `on_error` returns: the run never crashes, the
failing iteration reports and sleeps before recursing, and the next
iteration makes another ping attempt. -/
theorem claim_C7_witness :
    (runPingFrom pingEnvW 60 0 3).2 ≠ PingRes.crashed ExcClass.otherError ∧
    runPingFrom pingEnvW 60 0 3 =
      (Event.pingCall :: Event.onError ExcClass.socketError :: Event.sleepSec ::
        (List.replicate (intervalSleeps 60 (pingEnvW.intervalActive 0))
            Event.sleepSec ++
          (runPingFrom pingEnvW 60 1 2).1),
       (runPingFrom pingEnvW 60 1 2).2) ∧
    Event.pingCall ∈ (runPingFrom pingEnvW 60 1 2).1 :=
  ⟨claim_C7.1 pingEnvW 60 (fun _ => rfl) 0 3 ExcClass.otherError,
   claim_C7.2.1 pingEnvW 60 0 2 1 ExcClass.socketError rfl rfl rfl rfl,
   claim_C7.2.2 pingEnvW 60 1 1 rfl⟩

/-- `text[:1000]` never exceeds 1000 characters. -/
theorem take1000_le (t : List Char) : (t.take 1000).length ≤ 1000 := by
  simpa using Nat.min_le_left 1000 t.length

/-- Recording a sent text preserves the diagnostic bound. -/
theorem diagInv_record_sent (st : ClientState) (t : List Char)
    (h : diagInv st) : diagInv (record_last_sent_text st t) := by
  refine ⟨?_, ?_⟩
  · intro s hs
    simp only [record_last_sent_text, Option.some.injEq] at hs
    simpa [← hs] using take1000_le t
  · intro s hs
    exact h.2 s hs

/-- Recording a received text preserves the diagnostic bound. -/
theorem diagInv_record_received (st : ClientState) (t : List Char)
    (h : diagInv st) : diagInv (record_last_received_text st t) := by
  refine ⟨?_, ?_⟩
  · intro s hs
    exact h.1 s hs
  · intro s hs
    simp only [record_last_received_text, Option.some.injEq] at hs
    simpa [← hs] using take1000_le t

/-- Changing only the handle field preserves the diagnostic bound. -/
theorem diagInv_set_ws (st : ClientState) (w : Option Nat) (h : diagInv st) :
    diagInv { st with ws := w } := h

/-- `_ensure_connection` preserves the diagnostic bound. -/
theorem diagInv_ensure (cr : Except ExcClass Nat) (ocr : Option ExcClass)
    (st : ClientState) (h : diagInv st) :
    diagInv (ensure_connection cr ocr st).1 := by
  unfold ensure_connection
  cases st.ws with
  | some k => exact h
  | none =>
    cases cr with
    | error e => exact h
    | ok k => exact h

/-- `_disconnect` preserves the diagnostic bound. -/
theorem diagInv_disconnect (cl od : Option ExcClass) (st : ClientState)
    (h : diagInv st) : diagInv (disconnect cl od st).1 := by
  unfold disconnect
  cases st.ws with
  | none => exact h
  | some k =>
    cases cl with
    | some e => exact h
    | none => exact h

/-- The receive/decode/dispatch part of the loop body preserves the
diagnostic bound. -/
theorem diagInv_bodyAfterEnsure (env : IterEnv) (st : ClientState)
    (h : diagInv st) : diagInv (bodyAfterEnsure env st).1 := by
  unfold bodyAfterEnsure
  cases st.ws with
  | none => exact h
  | some k =>
    cases env.recvResult with
    | exc e => exact h
    | ok s =>
      by_cases hs : s = []
      · simp only [hs, if_true]
        exact diagInv_disconnect _ _ _ h
      · simp only [hs, if_false]
        have hr := diagInv_record_received st s h
        cases env.unpackResult with
        | error e =>
          by_cases hv : e = ExcClass.valueError <;> simp [hv] <;> exact hr
        | ok d =>
          cases env.onPacketResult with
          | error e => exact hr
          | ok u => exact hr

/-- The whole loop body preserves the diagnostic bound. -/
theorem diagInv_loopBody (env : IterEnv) (st : ClientState)
    (h : diagInv st) : diagInv (loopBody env st).1 := by
  have h1 := diagInv_ensure env.connectResult env.onConnectedRaises st h
  rcases hE : ensure_connection env.connectResult env.onConnectedRaises st
    with ⟨st1, evs1, r1⟩
  rw [hE] at h1
  have h2 := diagInv_bodyAfterEnsure env st1 h1
  unfold loopBody
  rw [hE]
  cases r1 with
  | some e => exact h1
  | none => exact h2

/-- One worker iteration preserves the diagnostic bound. -/
theorem diagInv_runIter (env : IterEnv) (st : ClientState)
    (h : diagInv st) : diagInv (runIter env st).1 := by
  have hb := diagInv_loopBody env st h
  rcases hB : loopBody env st with ⟨st1, evs1, r1⟩
  rw [hB] at hb
  have hd := diagInv_disconnect env.closeRaises env.onDisconnectedRaises st1 hb
  rcases hD : disconnect env.closeRaises env.onDisconnectedRaises st1
    with ⟨st2, evs2, r2⟩
  rw [hD] at hd
  unfold runIter
  rw [hB]
  cases r1 with
  | none => exact hb
  | some e =>
    cases hT : isTransportExc e with
    | true =>
      simp only [hT, if_true, hD]
      cases r2 with
      | none => exact hd
      | some e2 => exact hd
    | false =>
      simp only [hT, Bool.false_eq_true, if_false, hD]
      cases env.onErrorRaises with
      | some e2 => exact hb
      | none =>
        cases r2 with
        | none => exact hd
        | some e2 => exact hd

/-- The final `_disconnect` of `_run` preserves the diagnostic bound. -/
theorem diagInv_runExit (env : RunEnv) (st : ClientState) (h : diagInv st) :
    diagInv (runExit env st).1 := by
  have hd := diagInv_disconnect env.finalCloseRaises
    env.finalOnDisconnectedRaises st h
  rcases hD : disconnect env.finalCloseRaises env.finalOnDisconnectedRaises st
    with ⟨st2, evs2, r2⟩
  rw [hD] at hd
  unfold runExit
  rw [hD]
  cases r2 with
  | none => exact hd
  | some e => exact hd

/-- A whole `_run` execution preserves the diagnostic bound. -/
theorem diagInv_runFrom (env : RunEnv) (i fuel : Nat) (st : ClientState)
    (h : diagInv st) : diagInv (runFrom env i fuel st).1 := by
  induction fuel generalizing i st with
  | zero => exact h
  | succ fuel ih =>
    unfold runFrom
    by_cases hact : env.activeAt i = true
    · have hi := diagInv_runIter (env.iter i) st h
      rcases hR : runIter (env.iter i) st with ⟨st1, evs1, o⟩
      rw [hR] at hi
      rw [hact]
      simp only [if_true]
      cases o with
      | cont => exact ih (i + 1) st1 hi
      | raised e =>
        cases env.outerOnErrorRaises with
        | some e2 => exact hi
        | none => exact diagInv_runExit env st1 hi
    · simp only [Bool.not_eq_true] at hact
      rw [hact]
      simp only [Bool.false_eq_true, if_false]
      exact diagInv_runExit env st h

/-- `send_packet` preserves the diagnostic bound. -/
theorem diagInv_send_packet (dumps : PData → List Char)
    (sr : Option ExcClass) (st : ClientState) (p : PData) (h : diagInv st) :
    diagInv (send_packet dumps sr st p).1 :=
  diagInv_record_sent st (dumps p) h

/-- Claim C8: the two diagnostic strings are recorded by overwriting
with the input truncated to 1000 characters; the at-most-1000 bound
holds on a fresh client and is preserved by every modelled operation
(recording, sending, one worker iteration, a whole `_run`, `init`). -/
theorem claim_C8 :
    (∀ st t, record_last_sent_text st t =
        { st with last_sent_text := some (t.take 1000) } ∧
      record_last_received_text st t =
        { st with last_received_text := some (t.take 1000) } ∧
      (t.take 1000).length ≤ 1000) ∧
    diagInv mkClient ∧
    (∀ st t, diagInv st → diagInv (record_last_sent_text st t) ∧
      diagInv (record_last_received_text st t)) ∧
    (∀ dumps sr st p, diagInv st → diagInv (send_packet dumps sr st p).1) ∧
    (∀ env st, diagInv st → diagInv (runIter env st).1) ∧
    (∀ env i fuel st, diagInv st → diagInv (runFrom env i fuel st).1) ∧
    (∀ st host ph pp pingIv hd lp rt, diagInv st →
      diagInv (init st host ph pp pingIv hd lp rt)) := by
  refine ⟨?_, ?_, ?_, ?_, ?_, ?_, ?_⟩
  · intro st t
    exact ⟨rfl, rfl, take1000_le t⟩
  · exact ⟨fun s hs => Option.noConfusion hs, fun s hs => Option.noConfusion hs⟩
  · intro st t h
    exact ⟨diagInv_record_sent st t h, diagInv_record_received st t h⟩
  · intro dumps sr st p h
    exact diagInv_send_packet dumps sr st p h
  · intro env st h
    exact diagInv_runIter env st h
  · intro env i fuel st h
    exact diagInv_runFrom env i fuel st h
  · intro st host ph pp pingIv hd lp rt h
    unfold init
    cases lp <;> cases hd <;>
      (repeat' split) <;> exact h

/-- Witness for C8 at a concrete oversized input: recording a
2000-character text on a fresh client stores exactly its 1000-character
truncation, which meets the bound. -/
theorem claim_C8_witness :
    record_last_sent_text mkClient (List.replicate 2000 'a') =
      { mkClient with
          last_sent_text := some ((List.replicate 2000 'a').take 1000) } ∧
    ((List.replicate 2000 'a').take 1000).length ≤ 1000 ∧
    diagInv (record_last_sent_text mkClient (List.replicate 2000 'a')) :=
  ⟨(claim_C8.1 mkClient (List.replicate 2000 'a')).1,
   (claim_C8.1 mkClient (List.replicate 2000 'a')).2.2,
   (claim_C8.2.2.1 mkClient (List.replicate 2000 'a')
      ⟨fun s hs => Option.noConfusion hs, fun s hs => Option.noConfusion hs⟩).1⟩

/-- `connEvents` distributes over trace concatenation. -/
theorem connEvents_append (l m : List Event) :
    connEvents (l ++ m) = connEvents l ++ connEvents m := by
  simp [connEvents, List.filter_append]

/-- An `onError` report contributes no connection-lifecycle event. -/
theorem connEvents_onError (e : ExcClass) :
    connEvents [Event.onError e] = [] := rfl

/-- Connection walks compose. -/
theorem connWalk_append {a b c : Bool} {l m : List Event}
    (h1 : ConnWalk a l b) (h2 : ConnWalk b m c) : ConnWalk a (l ++ m) c := by
  induction h1 with
  | nil => exact h2
  | conn h ih => exact ConnWalk.conn (ih h2)
  | disc h ih => exact ConnWalk.disc (ih h2)

/-- The first event of a connection walk is determined by its start
state. -/
theorem connWalk_head {a b : Bool} {l : List Event} (h : ConnWalk a l b) :
    ∀ x ∈ l.head?, x = if a then Event.onDisconnected else Event.onConnected := by
  cases h with
  | nil => intro x hx; cases hx
  | conn h => intro x hx; simp only [List.head?_cons, Option.mem_def,
      Option.some.injEq] at hx; simp [← hx]
  | disc h => intro x hx; simp only [List.head?_cons, Option.mem_def,
      Option.some.injEq] at hx; simp [← hx]

/-- The labels along a connection walk strictly alternate. -/
theorem connWalk_alternates {a b : Bool} {l : List Event}
    (h : ConnWalk a l b) : alternates l := by
  induction h with
  | nil => exact List.chain'_nil
  | conn h ih =>
    refine List.chain'_cons'.mpr ⟨?_, ih⟩
    intro y hy
    have hhd := connWalk_head h y hy
    simp only [if_true] at hhd
    simp [hhd]
  | disc h ih =>
    refine List.chain'_cons'.mpr ⟨?_, ih⟩
    intro y hy
    have hhd := connWalk_head h y hy
    simp only [if_false] at hhd
    simp [hhd]

/-- `_ensure_connection` advances the connection automaton from the
presence of a handle before to its presence after. -/
theorem connWalk_ensure (cr : Except ExcClass Nat) (ocr : Option ExcClass)
    (st : ClientState) :
    ConnWalk st.ws.isSome (connEvents (ensure_connection cr ocr st).2.1)
      (ensure_connection cr ocr st).1.ws.isSome := by
  unfold ensure_connection
  cases hw : st.ws with
  | some k =>
    simp only [hw, connEvents, List.filter_nil, Option.isSome_some]
    exact ConnWalk.nil true
  | none =>
    cases cr with
    | error e =>
      simp only [hw, Option.isSome_none]
      show ConnWalk false (connEvents [Event.connectAttempt (connectArgsOf st)]) false
      exact ConnWalk.nil false
    | ok k =>
      simp only [hw, Option.isSome_none, Option.isSome_some]
      show ConnWalk false
        (connEvents [Event.connectAttempt (connectArgsOf st), Event.onConnected]) true
      exact ConnWalk.conn (ConnWalk.nil true)

/-- `_disconnect` with a transport close that returns normally advances
the connection automaton. -/
theorem connWalk_disconnect (od : Option ExcClass) (st : ClientState) :
    ConnWalk st.ws.isSome (connEvents (disconnect none od st).2.1)
      (disconnect none od st).1.ws.isSome := by
  unfold disconnect
  cases hw : st.ws with
  | none =>
    simp only [hw, Option.isSome_none, connEvents, List.filter_nil]
    exact ConnWalk.nil false
  | some k =>
    simp only [hw, Option.isSome_some, Option.isSome_none]
    show ConnWalk true (connEvents [Event.onDisconnected]) false
    exact ConnWalk.disc (ConnWalk.nil false)

/-- The receive/decode/dispatch part of the loop body advances the
connection automaton when the transport close returns normally. -/
theorem connWalk_bodyAfterEnsure (env : IterEnv) (st : ClientState)
    (hc : env.closeRaises = none) :
    ConnWalk st.ws.isSome (connEvents (bodyAfterEnsure env st).2.1)
      (bodyAfterEnsure env st).1.ws.isSome := by
  unfold bodyAfterEnsure
  cases hw : st.ws with
  | none =>
    simp only [hw]
    exact ConnWalk.nil _
  | some k =>
    cases env.recvResult with
    | exc e =>
      simp only [hw]
      exact ConnWalk.nil _
    | ok s =>
      simp only []
      by_cases hs : s = []
      · rw [if_pos hs, hc]
        have hdw := connWalk_disconnect env.onDisconnectedRaises st
        rw [hw] at hdw
        exact hdw
      · rw [if_neg hs]
        cases env.unpackResult with
        | error e =>
          simp only []
          by_cases hv : e = ExcClass.valueError
          · rw [if_pos hv]
            simp only [record_last_received_text, hw]
            exact ConnWalk.nil _
          · rw [if_neg hv]
            simp only [record_last_received_text, hw]
            exact ConnWalk.nil _
        | ok d =>
          cases env.onPacketResult with
          | error e =>
            simp only [record_last_received_text, hw]
            exact ConnWalk.nil _
          | ok u =>
            simp only [record_last_received_text, hw]
            exact ConnWalk.nil _

/-- The whole loop body advances the connection automaton (clean
transport close). -/
theorem connWalk_loopBody (env : IterEnv) (st : ClientState)
    (hc : env.closeRaises = none) :
    ConnWalk st.ws.isSome (connEvents (loopBody env st).2.1)
      (loopBody env st).1.ws.isSome := by
  have h1 := connWalk_ensure env.connectResult env.onConnectedRaises st
  rcases hE : ensure_connection env.connectResult env.onConnectedRaises st
    with ⟨st1, evs1, r1⟩
  rw [hE] at h1
  have h2 := connWalk_bodyAfterEnsure env st1 hc
  rcases hB : bodyAfterEnsure env st1 with ⟨st2, evs2, r2⟩
  rw [hB] at h2
  unfold loopBody
  rw [hE]
  cases r1 with
  | some e => exact h1
  | none =>
    simp only [hB, connEvents_append]
    exact connWalk_append h1 h2

/-- One worker iteration, `except` clauses included, advances the
connection automaton (clean transport close). -/
theorem connWalk_runIter (env : IterEnv) (st : ClientState)
    (hc : env.closeRaises = none) :
    ConnWalk st.ws.isSome (connEvents (runIter env st).2.1)
      (runIter env st).1.ws.isSome := by
  have hb := connWalk_loopBody env st hc
  rcases hB : loopBody env st with ⟨st1, evs1, r1⟩
  rw [hB] at hb
  have hd := connWalk_disconnect env.onDisconnectedRaises st1
  rcases hD : disconnect none env.onDisconnectedRaises st1
    with ⟨st2, evs2, r2⟩
  rw [hD] at hd
  unfold runIter
  rw [hB, hc]
  cases r1 with
  | none => exact hb
  | some e =>
    cases hT : isTransportExc e with
    | true =>
      simp only [hT, if_true, hD]
      cases r2 with
      | none =>
        simp only [connEvents_append]
        exact connWalk_append hb hd
      | some e2 =>
        simp only [connEvents_append]
        exact connWalk_append hb hd
    | false =>
      simp only [hT, Bool.false_eq_true, if_false, hD]
      cases env.onErrorRaises with
      | some e2 =>
        simp only [connEvents_append, connEvents_onError, List.append_nil]
        exact hb
      | none =>
        cases r2 with
        | none =>
          simp only [connEvents_append, connEvents_onError, List.append_nil,
            List.nil_append]
          exact connWalk_append hb hd
        | some e2 =>
          simp only [connEvents_append, connEvents_onError, List.append_nil,
            List.nil_append]
          exact connWalk_append hb hd

/-- The final `_disconnect` of `_run` advances the connection automaton
(clean transport close). -/
theorem connWalk_runExit (env : RunEnv) (st : ClientState)
    (hfc : env.finalCloseRaises = none) :
    ConnWalk st.ws.isSome (connEvents (runExit env st).2.1)
      (runExit env st).1.ws.isSome := by
  have hd := connWalk_disconnect env.finalOnDisconnectedRaises st
  rcases hD : disconnect none env.finalOnDisconnectedRaises st
    with ⟨st2, evs2, r2⟩
  rw [hD] at hd
  unfold runExit
  rw [hfc, hD]
  cases r2 with
  | none => exact hd
  | some e => exact hd

/-- A whole sequential `_run` execution advances the connection
automaton (clean transport closes throughout). -/
theorem connWalk_runFrom (env : RunEnv)
    (hc : ∀ j, (env.iter j).closeRaises = none)
    (hfc : env.finalCloseRaises = none) (i fuel : Nat) (st : ClientState) :
    ConnWalk st.ws.isSome (connEvents (runFrom env i fuel st).2.1)
      (runFrom env i fuel st).1.ws.isSome := by
  induction fuel generalizing i st with
  | zero => exact ConnWalk.nil _
  | succ fuel ih =>
    unfold runFrom
    by_cases hact : env.activeAt i = true
    · rw [hact]
      simp only [if_true]
      have hi := connWalk_runIter (env.iter i) st (hc i)
      rcases hR : runIter (env.iter i) st with ⟨st1, evs1, o⟩
      rw [hR] at hi
      cases o with
      | cont =>
        simp only [connEvents_append]
        exact connWalk_append hi (ih (i + 1) st1)
      | raised e =>
        cases env.outerOnErrorRaises with
        | some e2 =>
          simp only [connEvents_append, connEvents_onError, List.append_nil]
          exact hi
        | none =>
          have hx := connWalk_runExit env st1 hfc
          rcases hX : runExit env st1 with ⟨st2, evs2, r2⟩
          rw [hX] at hx
          simp only [hX, connEvents_append, connEvents_onError,
            List.append_nil, List.nil_append]
          exact connWalk_append hi hx
    · simp only [Bool.not_eq_true] at hact
      rw [hact]
      simp only [Bool.false_eq_true, if_false]
      exact connWalk_runExit env st hfc

/-- Claim C2 counterexample: a reachable interleaving in which
`onConnected` fires twice with no intervening `onDisconnected`.  Under
`schedCE` the worker connects, dispatches one packet and passes its
`while` check; a concurrent `stop()` then removes the handle inside the
lock but is preempted before invoking `on_disconnected` (which the
source fires outside the lock); the worker's next `_ensure_connection`
reconnects and fires a second `onConnected` first. -/
theorem claim_C2_counterexample :
    connEvents (runSched machEnvCE mach0 schedCE).trace =
      [Event.onConnected, Event.onConnected] ∧
    ¬ alternates (connEvents (runSched machEnvCE mach0 schedCE).trace) := by
  constructor
  · rfl
  · intro hch
    have hch' : List.Chain' (fun a b => a ≠ b)
        [Event.onConnected, Event.onConnected] := hch
    rcases List.chain'_cons.mp hch' with ⟨hne, -⟩
    exact hne rfl

/-- Claim C2 (amended): in sequential executions of the worker — where
`_ensure_connection`/`_disconnect` and their callbacks are not
interleaved with a concurrent `stop()` — and with the transport close
returning normally, the `onConnected`/`onDisconnected` events of a whole
`_run` execution follow the two-state connection automaton from the
initial handle state and therefore strictly alternate. -/
theorem claim_C2_amended (env : RunEnv) (i fuel : Nat) (st : ClientState)
    (hc : ∀ j, (env.iter j).closeRaises = none)
    (hfc : env.finalCloseRaises = none) :
    ConnWalk st.ws.isSome (connEvents (runFrom env i fuel st).2.1)
      (runFrom env i fuel st).1.ws.isSome ∧
    alternates (connEvents (runFrom env i fuel st).2.1) := by
  have hw := connWalk_runFrom env hc hfc i fuel st
  exact ⟨hw, connWalk_alternates hw⟩

/-- Witness for C2 (amended) at a concrete clean environment. -/
theorem claim_C2_amended_witness :
    ConnWalk mkClient.ws.isSome (connEvents (runFrom runEnvW 0 3 mkClient).2.1)
      (runFrom runEnvW 0 3 mkClient).1.ws.isSome ∧
    alternates (connEvents (runFrom runEnvW 0 3 mkClient).2.1) :=
  claim_C2_amended runEnvW 0 3 mkClient (fun _ => rfl) rfl

end WSClient
